import Mathlib

/-!
# Verification of the tvdenoise lambda-tuning core (src/tvdenoise/tvdenoise.c)

Shallow embedding of the TV-denoising orchestration from `tvdenoise.c`:
the `ComputeRmse` residual metric, the `LambdaTune` discrepancy-principle
loop, the `Denoise` orchestrator, and the `ParseParams` command-line
validation.  Floating-point `num` values are modelled as elements of a
linear ordered field (instantiated at `ℚ` or `ℝ` in concrete statements);
`sqrt` is an explicit function parameter (instantiated at `Real.sqrt`
where its analytic properties matter).  The external TV solver
(`TvRestore`, from the tvreg library, not part of this repository) is an
oracle parameter; calls to it, to `TvRegSetLambda`, and `ComputeRmse`
measurements are recorded in an event trace so that the control flow of
the orchestration is observable.
-/

namespace Tvdenoise

/-- The `image` struct of tvdenoise.c: a flat buffer of samples plus
width, height and channel count (planar layout). -/
structure image (α : Type) where
  Data : List α
  Width : Nat
  Height : Nat
  NumChannels : Nat
deriving DecidableEq

/-- The fields of the external tvreg options object (`tvregopt`) that
tvdenoise.c sets: fidelity weight, noise model name, convergence
tolerance and maximum iteration count.  (The plot callback is set to
NULL and never used, so it is not modelled.) -/
structure tvregopt (α : Type) where
  Lambda : α
  NoiseModel : String
  Tol : α
  MaxIter : Nat
deriving DecidableEq

/-- Modelled from the spec: `TvRegSetLambda` of the external tvreg
library stores the fidelity weight in the options object. -/
def TvRegSetLambda {α : Type} (Opt : tvregopt α) (Lambda : α) : tvregopt α :=
  { Opt with Lambda := Lambda }

/-- Modelled from the spec: `TvRegSetTol` of the external tvreg library
stores the convergence tolerance in the options object. -/
def TvRegSetTol {α : Type} (Opt : tvregopt α) (Tol : α) : tvregopt α :=
  { Opt with Tol := Tol }

/-- Modelled from the spec: `TvRegSetMaxIter` of the external tvreg
library stores the iteration cap in the options object. -/
def TvRegSetMaxIter {α : Type} (Opt : tvregopt α) (MaxIter : Nat) : tvregopt α :=
  { Opt with MaxIter := MaxIter }

/-- Modelled from the spec: `TvRegSetNoiseModel` of the external tvreg
library validates the model name against exactly the three recognized
values "gaussian", "laplace", "poisson" (spec section 4.1: unrecognized
names are a hard error, no default substitution). -/
def TvRegSetNoiseModel (Model : String) : Bool :=
  Model == "gaussian" || Model == "laplace" || Model == "poisson"

/-- Events observable in the orchestration: a `TvRegSetLambda` store, a
`TvRestore` solver invocation (with the options in effect), and a
`ComputeRmse` residual measurement. -/
inductive event (α : Type) where
  | setLambda (value : α)
  | solve (lambda tol : α) (maxIter : Nat)
  | rmseMeasure (value : α)
deriving DecidableEq

/-- Modelled from the spec: the external `TvRestore` solver is an oracle
taking the working buffer, the noisy buffer and the options, and
returning the restored buffer, or `none` on failure. -/
def Solver (α : Type) : Type :=
  List α → List α → tvregopt α → Option (List α)

/-- A solver oracle that returns the noisy image itself (so every
residual it induces is zero).  Used to instantiate theorems about the
zero-rmse behaviour of the tuner. -/
def copySolver {α : Type} : Solver α :=
  fun _ fData _ => some fData

/-- Stand-in square root on ℚ used to instantiate generic statements at
concrete inputs where the value of `sqrt` is irrelevant (it maps
everything, in particular 0, to 0). -/
def sqrtQ : ℚ → ℚ := fun _ => 0

/-- `ComputeRmse` of tvdenoise.c (lines 288-300): the root
mean-square-error between two images, `sqrt(Σ (f[n]-u[n])² / N)` with
`N = u.Width·u.Height·u.NumChannels`, accumulated by a left fold exactly
as the C loop does. -/
def ComputeRmse {α : Type} [LinearOrderedField α] (sqrt : α → α)
    (f u : image α) : α :=
  let N : Nat := u.Width * u.Height * u.NumChannels
  let Rmse : α := (List.range N).foldl
    (fun Rmse n =>
      Rmse + (f.Data.getD n 0 - u.Data.getD n 0) *
        (f.Data.getD n 0 - u.Data.getD n 0)) 0
  sqrt (Rmse / (N : α))

/-- The per-round lambda correction of `LambdaTune` (tvdenoise.c lines
215-218): `Lambda *= sqrt(Rmse/Sigma)` for the laplace model and
`Lambda *= Rmse/Sigma` otherwise. -/
def correctLambda {α : Type} [LinearOrderedField α] (sqrt : α → α)
    (Model : String) (Lambda Rmse Sigma : α) : α :=
  if Model = "laplace" then Lambda * sqrt (Rmse / Sigma)
  else Lambda * (Rmse / Sigma)

/-- The empirical initial-lambda estimates of `LambdaTune` (tvdenoise.c
lines 178-189), one closed-form formula per recognized model; `none`
for an unrecognized model (the C code prints an error and returns 0). -/
def initialLambdaRaw {α : Type} [LinearOrderedField α]
    (Model : String) (Sigma : α) : Option α :=
  if Model = "gaussian" then
    some (0.7079 / Sigma + 0.002686 / (Sigma * Sigma))
  else if Model = "laplace" then
    some ((-0.00416 * Sigma + 0.001301) /
      (((Sigma - 0.2042) * Sigma + 0.01635) * Sigma + 5.836e-4))
  else if Model = "poisson" then
    some (0.2839 / Sigma + 0.001502 / (Sigma * Sigma))
  else none

/-- `LAMBDA_TUNE_ITERATIONS` of tvdenoise.c (line 33). -/
def LAMBDA_TUNE_ITERATIONS : Nat := 5

/-- Whether an event is a `TvRestore` solver invocation. -/
def isSolveEvent {α : Type} : event α → Bool
  | event.solve _ _ _ => true
  | _ => false

/-- State threaded through the `LambdaTune` loop: the success flag, the
working image `u`, the local `Lambda` variable, the options object, and
the trace of observable events so far. -/
structure tuneState (α : Type) where
  success : Bool
  u : image α
  Lambda : α
  Opt : tvregopt α
  trace : List (event α)
deriving DecidableEq

/-- One round of the `LambdaTune` loop (tvdenoise.c lines 201-222): call
`TvRestore` with the current `u` as warm start (abort on failure),
measure the rmse against `f`, apply the model-specific multiplicative
correction, and store the corrected lambda in the options.  A state
whose success flag is already cleared is passed through unchanged (the C
code has returned by then). -/
def tuneStep {α : Type} [LinearOrderedField α] (sqrt : α → α)
    (solver : Solver α) (f : image α) (Model : String) (Sigma : α)
    (st : tuneState α) : tuneState α :=
  if st.success = false then st
  else
    let trace1 := st.trace ++ [event.solve st.Opt.Lambda st.Opt.Tol st.Opt.MaxIter]
    match solver st.u.Data f.Data st.Opt with
    | none => { st with success := false, trace := trace1 }
    | some d =>
      let u2 : image α := { st.u with Data := d }
      let Rmse := ComputeRmse sqrt f u2
      let Lambda2 := correctLambda sqrt Model st.Lambda Rmse Sigma
      { success := true, u := u2, Lambda := Lambda2,
        Opt := TvRegSetLambda st.Opt Lambda2,
        trace := trace1 ++ [event.rmseMeasure Rmse, event.setLambda Lambda2] }

/-- The `for(k = 0; k < LAMBDA_TUNE_ITERATIONS; k++)` loop of
`LambdaTune`, as iterated application of `tuneStep`. -/
def tuneLoop {α : Type} [LinearOrderedField α] (sqrt : α → α)
    (solver : Solver α) (f : image α) (Model : String) (Sigma : α) :
    Nat → tuneState α → tuneState α
  | 0, st => st
  | Nat.succ k, st =>
      tuneLoop sqrt solver f Model Sigma k (tuneStep sqrt solver f Model Sigma st)

/-- `LambdaTune` of tvdenoise.c (lines 171-225): compute the empirical
initial lambda for the model (failing on an unrecognized model), clamp
it from below by 1e-4, store it, and run the fixed 5-round tuning loop. -/
def LambdaTune {α : Type} [LinearOrderedField α] (sqrt : α → α)
    (solver : Solver α) (Opt : tvregopt α) (u f : image α)
    (Model : String) (Sigma : α) : tuneState α :=
  match initialLambdaRaw Model Sigma with
  | none => { success := false, u := u, Lambda := 0, Opt := Opt, trace := [] }
  | some L0 =>
    let Lambda : α := if L0 < 1e-4 then 1e-4 else L0
    let Opt1 := TvRegSetLambda Opt Lambda
    tuneLoop sqrt solver f Model Sigma LAMBDA_TUNE_ITERATIONS
      { success := true, u := u, Lambda := Lambda, Opt := Opt1,
        trace := [event.setLambda Lambda] }

/-- Result of `Denoise`: the success flag, the working image buffer at
exit, and the trace of observable events. -/
structure denoiseResult (α : Type) where
  success : Bool
  u : image α
  trace : List (event α)
deriving DecidableEq

/-- `Denoise` of tvdenoise.c (lines 237-284): validate the noise model
(hard error before anything else; the `TvRegNewOpt` allocation is
assumed to succeed, resource failure being out of scope), warm-start `u`
by copying `f`'s buffer (`memcpy` of `f.Width·f.Height·f.NumChannels`
samples), configure the coarse options (tol 1e-2, 40 iterations), either
store the user-supplied lambda (when `Sigma <= 0`) or run `LambdaTune`,
then tighten the options (tol 5e-4, 100 iterations) and run the final
solve; after a successful final solve, when `Sigma > 0`, the final rmse
is recomputed for the progress report (lines 277-278). -/
def Denoise {α : Type} [LinearOrderedField α] (sqrt : α → α)
    (solver : Solver α) (u f : image α) (Model : String)
    (Sigma Lambda : α) : denoiseResult α :=
  if TvRegSetNoiseModel Model = false then
    { success := false, u := u, trace := [] }
  else
    let N := f.Width * f.Height * f.NumChannels
    let u1 : image α := { u with Data := f.Data.take N ++ u.Data.drop N }
    let Opt0 : tvregopt α :=
      { Lambda := 0, NoiseModel := Model, Tol := 1e-2, MaxIter := 40 }
    let st : tuneState α :=
      if Sigma ≤ 0 then
        { success := true, u := u1, Lambda := Lambda,
          Opt := TvRegSetLambda Opt0 Lambda,
          trace := [event.setLambda Lambda] }
      else LambdaTune sqrt solver Opt0 u1 f Model Sigma
    if st.success = false then
      { success := false, u := st.u, trace := st.trace }
    else
      let Opt1 := TvRegSetMaxIter (TvRegSetTol st.Opt 5e-4) 100
      let trace1 := st.trace ++ [event.solve Opt1.Lambda Opt1.Tol Opt1.MaxIter]
      match solver st.u.Data f.Data Opt1 with
      | none => { success := false, u := st.u, trace := trace1 }
      | some d =>
        { success := true, u := { st.u with Data := d },
          trace := if Sigma > 0 then
              trace1 ++ [event.rmseMeasure (ComputeRmse sqrt f { st.u with Data := d })]
            else trace1 }

/-- Numeric value of a decimal digit character. -/
def digitVal (c : Char) : Nat := c.toNat - 48

/-- Consume a maximal run of decimal digits, accumulating their value
(helper for the model of C `atof`). -/
def parseNatDigits : List Char → Nat → Nat × List Char
  | [], acc => (acc, [])
  | c :: cs, acc =>
    if c.isDigit then parseNatDigits cs (10 * acc + digitVal c)
    else (acc, c :: cs)

/-- Consume a maximal run of decimal digits, accumulating their value
and their count (helper for the fractional part of C `atof`). -/
def parseFracDigits : List Char → Nat → Nat → Nat × Nat × List Char
  | [], acc, k => (acc, k, [])
  | c :: cs, acc, k =>
    if c.isDigit then parseFracDigits cs (10 * acc + digitVal c) (k + 1)
    else (acc, k, c :: cs)

/-- Model of C `atof` (libc, external to this repository) on decimal
literals: optional leading whitespace, optional sign, integer digits,
optional fractional part, optional decimal exponent.  Unparsable input
yields 0, as `atof` does.  (Hexadecimal, infinity and nan forms are not
modelled; the program only passes decimal sigma/lambda arguments.) -/
def atof (s : String) : ℚ :=
  let cs := s.data.dropWhile (fun c => c = ' ' ∨ c = '\t' ∨ c = '\n' ∨ c = '\x0d')
  let sgnCs : ℚ × List Char :=
    match cs with
    | '-' :: cs2 => (-1, cs2)
    | '+' :: cs2 => (1, cs2)
    | _ => (1, cs)
  let ipCs := parseNatDigits sgnCs.2 0
  let fpCs : Nat × Nat × List Char :=
    match ipCs.2 with
    | '.' :: cs2 => parseFracDigits cs2 0 0
    | _ => (0, 0, ipCs.2)
  let mant : ℚ := sgnCs.1 * ((ipCs.1 : ℚ) + (fpCs.1 : ℚ) / 10 ^ fpCs.2.1)
  match fpCs.2.2 with
  | e :: cs2 =>
    if e = 'e' ∨ e = 'E' then
      let esgnCs : Int × List Char :=
        match cs2 with
        | '-' :: cs3 => (-1, cs3)
        | '+' :: cs3 => (1, cs3)
        | _ => (1, cs2)
      let ev := parseNatDigits esgnCs.2 0
      mant * (10 : ℚ) ^ (esgnCs.1 * (ev.1 : Int))
    else mant
  | [] => mant

/-- Model of C `strchr` specialised to how tvdenoise.c uses it on the
`-n` option: find the first occurrence of `c` and return the text before
it together with the text after it (the C code overwrites the `':'` with
`'\0'`, truncating the model name in place). -/
def strchrSplit : List Char → Char → Option (List Char × List Char)
  | [], _ => none
  | x :: xs, c =>
    if x = c then some ([], xs)
    else
      match strchrSplit xs c with
      | none => none
      | some (a, b) => some (x :: a, b)

/-- Model of C `isprint` (ASCII printable characters). -/
def isprint (c : Char) : Bool := 32 ≤ c.toNat && c.toNat ≤ 126

/-- The `programparams` struct of tvdenoise.c (lines 59-74), with the
`num` fields at ℚ. -/
structure programparams where
  InputFile : Option String
  OutputFile : Option String
  JpegQuality : Int
  Model : String
  Sigma : ℚ
  Lambda : ℚ
deriving DecidableEq

/-- Outcome of `ParseParams`: success with the filled parameter struct,
or a return of 0 after printing the help message, or a return of 0 after
an `ErrorMessage` (whose text is recorded). -/
inductive parseResult where
  | ok (p : programparams)
  | help
  | err (msg : String)
deriving DecidableEq

/-- The `switch(OptionChar)` of `ParseParams` (tvdenoise.c lines
360-409): handle one option with its argument, either failing (help or
error) or updating the parameter struct.  The `-q` case sits behind
`#ifdef LIBJPEG_SUPPORT` (a macro the build never defines: the help text
tests `USE_LIBJPEG` instead), so it is not part of the compiled code. -/
def handleOpt (st : programparams) (OptionChar : Char)
    (OptionString : List Char) : Except parseResult programparams :=
  if OptionChar = 'n' then
    match strchrSplit OptionString ':' with
    | none => Except.ok { st with Model := String.mk OptionString }
    | some (m, sigChars) =>
      let Sigma : ℚ := atof (String.mk sigChars) / 255
      if Sigma ≤ 0 then Except.error (parseResult.err "sigma must be positive.\n")
      else Except.ok { st with Model := String.mk m, Sigma := Sigma }
  else if OptionChar = 'l' then
    let Lambda : ℚ := atof (String.mk OptionString)
    if Lambda ≤ 0 then Except.error (parseResult.err "lambda must be positive.\n")
    else Except.ok { st with Lambda := Lambda }
  else if OptionChar = '-' then Except.error parseResult.help
  else
    Except.error (parseResult.err
      (if isprint OptionChar then
        "Unknown option \x22-" ++ String.mk [OptionChar] ++ "\x22.\n"
      else "Unknown option.\n"))

/-- The argument loop of `ParseParams` (tvdenoise.c lines 340-422) plus
the checks that follow it (lines 424-436): a dash argument carries an
option character whose argument is either the rest of the same argv
entry or the next entry; other arguments fill the input then the output
file; after the loop, a missing input file shows the help, and sigma and
lambda both unset (both still -1) is a configuration error. -/
def parseLoop (st : programparams) : List String → parseResult
  | [] =>
    if st.InputFile = none then parseResult.help
    else if st.Sigma < 0 ∧ st.Lambda < 0 then
      parseResult.err "Either sigma or lambda must be specified.\n"
    else parseResult.ok st
  | arg :: rest =>
    if arg.data.head? = some '-' then
      match arg.data.tail with
      | [] => parseResult.err "Invalid parameter format.\n"
      | OptionChar :: after =>
        match after with
        | _ :: _ =>
          match handleOpt st OptionChar after with
          | Except.error r => r
          | Except.ok st2 => parseLoop st2 rest
        | [] =>
          match rest with
          | [] => parseResult.err "Invalid parameter format.\n"
          | nextArg :: rest2 =>
            match handleOpt st OptionChar nextArg.data with
            | Except.error r => r
            | Except.ok st2 => parseLoop st2 rest2
    else
      parseLoop
        (if st.InputFile = none then { st with InputFile := some arg }
         else { st with OutputFile := some arg }) rest

/-- `ParseParams` of tvdenoise.c (lines 320-437): with fewer than two
argv entries show the help, otherwise run the argument loop on
`argv[1..]` starting from the defaults (model "gaussian", sigma and
lambda -1, JPEG quality 95). -/
def ParseParams (argv : List String) : parseResult :=
  if argv.length < 2 then parseResult.help
  else
    parseLoop
      { InputFile := none, OutputFile := none, JpegQuality := 95,
        Model := "gaussian", Sigma := -1, Lambda := -1 } argv.tail

/-- The spec's closed-form initial-lambda formulas (spec section 4.1),
written from the spec's words, for comparison with the code's
initialization of `Lambda` in `LambdaTune`. -/
def InitialLambdaSpec {α : Type} [LinearOrderedField α]
    (Model : String) (Sigma : α) : α :=
  if Model = "gaussian" then 0.7079 / Sigma + 0.002686 / (Sigma * Sigma)
  else if Model = "laplace" then
    (-0.00416 * Sigma + 0.001301) /
      (((Sigma - 0.2042) * Sigma + 0.01635) * Sigma + 5.836e-4)
  else if Model = "poisson" then 0.2839 / Sigma + 0.001502 / (Sigma * Sigma)
  else 0

/-- Shape of the trace fragment emitted by `k` consecutive successful
tuning rounds starting from lambda `lin` and ending at lambda `lout`:
each round contributes a solver call at the current lambda (with the
tuning tolerance and iteration cap), an rmse measurement, and the store
of the corrected lambda, which the next round then uses. -/
def roundsShape {α : Type} [LinearOrderedField α] (Tol : α) (MaxIter : Nat) :
    Nat → α → α → List (event α) → Prop
  | 0, lin, lout, t => lout = lin ∧ t = []
  | Nat.succ k, lin, lout, t =>
      ∃ (r l1 : α) (t1 : List (event α)),
        t = event.solve lin Tol MaxIter :: event.rmseMeasure r ::
          event.setLambda l1 :: t1 ∧
        roundsShape Tol MaxIter k l1 lout t1

/-- Concrete one-pixel working image over ℚ for witness statements. -/
def uQ : image ℚ := ⟨[0], 1, 1, 1⟩

/-- Concrete one-pixel noisy image over ℚ for witness statements. -/
def fQ : image ℚ := ⟨[1], 1, 1, 1⟩

/-- Concrete options object over ℚ for witness statements. -/
def optQ : tvregopt ℚ := ⟨2, "gaussian", 1/100, 40⟩

/-- Concrete tuning state over ℚ for witness statements. -/
def stQ : tuneState ℚ := ⟨true, uQ, 2, optQ, []⟩

section Lemmas

variable {α : Type} [LinearOrderedField α]

/-- A recognized model name passes the tvreg noise-model validation. -/
lemma TvRegSetNoiseModel_recognized {Model : String}
    (hM : Model = "gaussian" ∨ Model = "laplace" ∨ Model = "poisson") :
    TvRegSetNoiseModel Model = true := by
  rcases hM with rfl | rfl | rfl <;> rfl

/-- For a recognized model the empirical initialization succeeds and
produces exactly the spec's closed-form value. -/
lemma initialLambdaRaw_recognized {Model : String}
    (hM : Model = "gaussian" ∨ Model = "laplace" ∨ Model = "poisson")
    (Sigma : α) :
    initialLambdaRaw Model Sigma = some (InitialLambdaSpec Model Sigma) := by
  rcases hM with rfl | rfl | rfl <;> rfl

/-- A left fold accumulating `g` over `List.range N` is the sum of `g`
over `Finset.range N`. -/
lemma foldl_range_add (g : Nat → α) (N : Nat) :
    (List.range N).foldl (fun x n => x + g n) 0 = ∑ i ∈ Finset.range N, g i := by
  induction N with
  | zero => simp
  | succ N ih =>
    rw [List.range_succ, List.foldl_append, ih, Finset.sum_range_succ]
    rfl

/-- `ComputeRmse` as the square root of the mean of summed squared
differences. -/
lemma ComputeRmse_eq_sum (sqrt : α → α) (f u : image α) :
    ComputeRmse sqrt f u =
      sqrt ((∑ i ∈ Finset.range (u.Width * u.Height * u.NumChannels),
        (f.Data.getD i 0 - u.Data.getD i 0) * (f.Data.getD i 0 - u.Data.getD i 0)) /
        ((u.Width * u.Height * u.NumChannels : Nat) : α)) := by
  unfold ComputeRmse
  dsimp only
  rw [foldl_range_add (fun n => (f.Data.getD n 0 - u.Data.getD n 0) *
    (f.Data.getD n 0 - u.Data.getD n 0))]

/-- When the working buffer holds exactly the noisy data, the residual
sum vanishes and `ComputeRmse` is `sqrt 0`. -/
lemma ComputeRmse_data_eq (sqrt : α → α) (f w : image α)
    (h : w.Data = f.Data) : ComputeRmse sqrt f w = sqrt 0 := by
  rw [ComputeRmse_eq_sum, h]
  simp

/-- The lambda correction yields exactly 0 when the measured rmse is 0,
for every model (the square root of 0 being 0). -/
lemma correctLambda_rmse_zero (sqrt : α → α) (hsq : sqrt 0 = 0)
    (Model : String) (Lambda Sigma : α) :
    correctLambda sqrt Model Lambda 0 Sigma = 0 := by
  unfold correctLambda
  split <;> simp [hsq]

/-- The lambda correction yields 0 whenever the incoming lambda is 0. -/
lemma correctLambda_lambda_zero (sqrt : α → α) (Model : String)
    (Rmse Sigma : α) : correctLambda sqrt Model 0 Rmse Sigma = 0 := by
  unfold correctLambda
  split <;> simp

/-- A tuning round only appends events to the trace. -/
lemma tuneStep_trace_extends (sqrt : α → α) (solver : Solver α)
    (f : image α) (Model : String) (Sigma : α) (st : tuneState α) :
    ∃ t, (tuneStep sqrt solver f Model Sigma st).trace = st.trace ++ t := by
  unfold tuneStep
  split
  · exact ⟨[], (List.append_nil _).symm⟩
  · split
    · exact ⟨_, rfl⟩
    · exact ⟨_, List.append_assoc _ _ _⟩

/-- The tuning loop only appends events to the trace. -/
lemma tuneLoop_trace_extends (sqrt : α → α) (solver : Solver α)
    (f : image α) (Model : String) (Sigma : α) (k : Nat) :
    ∀ st : tuneState α,
      ∃ t, (tuneLoop sqrt solver f Model Sigma k st).trace = st.trace ++ t := by
  induction k with
  | zero => intro st; exact ⟨[], by simp [tuneLoop]⟩
  | succ k ih =>
    intro st
    obtain ⟨t2, h2⟩ := ih (tuneStep sqrt solver f Model Sigma st)
    obtain ⟨t1, h1⟩ := tuneStep_trace_extends sqrt solver f Model Sigma st
    exact ⟨t1 ++ t2, by simp only [tuneLoop]; rw [h2, h1, List.append_assoc]⟩

/-- Characterization of one successful tuning round: the solver result
replaces the working buffer, the measured rmse and the corrected lambda
are appended to the trace, and the corrected lambda is stored both in
the local variable and in the options. -/
lemma tuneStep_run (sqrt : α → α) (solver : Solver α) (f : image α)
    (Model : String) (Sigma : α) (st : tuneState α) (d : List α)
    (hsucc : st.success = true)
    (hd : solver st.u.Data f.Data st.Opt = some d) :
    tuneStep sqrt solver f Model Sigma st =
      { success := true,
        u := { st.u with Data := d },
        Lambda := correctLambda sqrt Model st.Lambda
          (ComputeRmse sqrt f { st.u with Data := d }) Sigma,
        Opt := TvRegSetLambda st.Opt (correctLambda sqrt Model st.Lambda
          (ComputeRmse sqrt f { st.u with Data := d }) Sigma),
        trace := st.trace ++
          [event.solve st.Opt.Lambda st.Opt.Tol st.Opt.MaxIter,
           event.rmseMeasure (ComputeRmse sqrt f { st.u with Data := d }),
           event.setLambda (correctLambda sqrt Model st.Lambda
             (ComputeRmse sqrt f { st.u with Data := d }) Sigma)] } := by
  unfold tuneStep
  rw [hsucc]
  simp [hd]

/-- The first event `LambdaTune` emits is the store of the clamped
initial lambda estimate. -/
lemma LambdaTune_trace_head (sqrt : α → α) (solver : Solver α)
    (Opt : tvregopt α) (u f : image α) (Model : String) (Sigma : α)
    (L0 : α) (h : initialLambdaRaw Model Sigma = some L0) :
    (LambdaTune sqrt solver Opt u f Model Sigma).trace.head? =
      some (event.setLambda (if L0 < 1e-4 then 1e-4 else L0)) := by
  unfold LambdaTune
  rw [h]
  dsimp only
  obtain ⟨t, ht⟩ := tuneLoop_trace_extends sqrt solver f Model Sigma
    LAMBDA_TUNE_ITERATIONS
    { success := true, u := u, Lambda := if L0 < 1e-4 then 1e-4 else L0,
      Opt := TvRegSetLambda Opt (if L0 < 1e-4 then 1e-4 else L0),
      trace := [event.setLambda (if L0 < 1e-4 then 1e-4 else L0)] }
  rw [ht]
  rfl

/-- Under a never-failing solver, `k` tuning rounds from a successful
state whose options hold the current lambda succeed, preserve the
tolerance and iteration cap, and append exactly `k` rounds of
solve/rmse/store events chaining the lambda along. -/
lemma tuneLoop_run_total (sqrt : α → α) (solver : Solver α) (f : image α)
    (Model : String) (Sigma : α)
    (hs : ∀ a b o, solver a b o ≠ none) :
    ∀ (k : Nat) (st : tuneState α), st.success = true →
      st.Opt.Lambda = st.Lambda →
      ∃ (lam : α) (mid : List (event α)) (ufin : image α),
        tuneLoop sqrt solver f Model Sigma k st =
          { success := true, u := ufin, Lambda := lam,
            Opt := { Lambda := lam, NoiseModel := st.Opt.NoiseModel,
                     Tol := st.Opt.Tol, MaxIter := st.Opt.MaxIter },
            trace := st.trace ++ mid } ∧
        roundsShape st.Opt.Tol st.Opt.MaxIter k st.Lambda lam mid := by
  intro k
  induction k with
  | zero =>
    intro st hst hlam
    refine ⟨st.Lambda, [], st.u, ?_, rfl, rfl⟩
    obtain ⟨su, uu, L, Opt, tr⟩ := st
    obtain ⟨OL, NM, TL, MI⟩ := Opt
    dsimp at hst hlam ⊢
    subst hst hlam
    simp [tuneLoop]
  | succ k ih =>
    intro st hst hlam
    obtain ⟨d, hd⟩ := Option.ne_none_iff_exists'.mp (hs st.u.Data f.Data st.Opt)
    simp only [tuneLoop]
    rw [tuneStep_run sqrt solver f Model Sigma st d hst hd, hlam]
    obtain ⟨lam, mid, ufin, hloop, hshape⟩ :=
      ih { success := true, u := { st.u with Data := d },
           Lambda := correctLambda sqrt Model st.Lambda
             (ComputeRmse sqrt f { st.u with Data := d }) Sigma,
           Opt := TvRegSetLambda st.Opt (correctLambda sqrt Model st.Lambda
             (ComputeRmse sqrt f { st.u with Data := d }) Sigma),
           trace := st.trace ++
             [event.solve st.Lambda st.Opt.Tol st.Opt.MaxIter,
              event.rmseMeasure (ComputeRmse sqrt f { st.u with Data := d }),
              event.setLambda (correctLambda sqrt Model st.Lambda
                (ComputeRmse sqrt f { st.u with Data := d }) Sigma)] } rfl rfl
    rw [hloop]
    refine ⟨lam,
      event.solve st.Lambda st.Opt.Tol st.Opt.MaxIter ::
        event.rmseMeasure (ComputeRmse sqrt f { st.u with Data := d }) ::
        event.setLambda (correctLambda sqrt Model st.Lambda
          (ComputeRmse sqrt f { st.u with Data := d }) Sigma) :: mid,
      ufin, ?_, ?_⟩
    · simp [TvRegSetLambda, List.append_assoc]
    · simp only [roundsShape]
      exact ⟨ComputeRmse sqrt f { st.u with Data := d },
        correctLambda sqrt Model st.Lambda
          (ComputeRmse sqrt f { st.u with Data := d }) Sigma,
        mid, rfl, hshape⟩

/-- With the copy solver, once the local lambda and the stored lambda
are both 0, every further tuning round keeps them at 0, preserves the
tolerance and iteration cap, succeeds, and only appends to the trace. -/
lemma tuneLoop_copy_zero (sqrt : α → α) (f : image α) (Model : String)
    (Sigma : α) (hsq : sqrt 0 = 0) :
    ∀ (k : Nat) (st : tuneState α), st.success = true →
      st.Lambda = 0 → st.Opt.Lambda = 0 →
      (tuneLoop sqrt copySolver f Model Sigma k st).success = true ∧
      (tuneLoop sqrt copySolver f Model Sigma k st).Lambda = 0 ∧
      (tuneLoop sqrt copySolver f Model Sigma k st).Opt.Lambda = 0 ∧
      (tuneLoop sqrt copySolver f Model Sigma k st).Opt.Tol = st.Opt.Tol ∧
      (tuneLoop sqrt copySolver f Model Sigma k st).Opt.MaxIter = st.Opt.MaxIter ∧
      ∃ t, (tuneLoop sqrt copySolver f Model Sigma k st).trace = st.trace ++ t := by
  intro k
  induction k with
  | zero =>
    intro st hst hl hol
    exact ⟨hst, hl, hol, rfl, rfl, [], (List.append_nil _).symm⟩
  | succ k ih =>
    intro st hst hl hol
    simp only [tuneLoop]
    have hd : copySolver st.u.Data f.Data st.Opt = some f.Data := rfl
    rw [tuneStep_run sqrt copySolver f Model Sigma st f.Data hst hd]
    have hR : ComputeRmse sqrt f { st.u with Data := f.Data } = 0 :=
      (ComputeRmse_data_eq sqrt f { st.u with Data := f.Data } rfl).trans hsq
    rw [hR, correctLambda_rmse_zero sqrt hsq Model st.Lambda Sigma]
    obtain ⟨h1, h2, h3, h4, h5, t, ht⟩ :=
      ih { success := true, u := { st.u with Data := f.Data }, Lambda := 0,
           Opt := TvRegSetLambda st.Opt 0,
           trace := st.trace ++
             [event.solve st.Opt.Lambda st.Opt.Tol st.Opt.MaxIter,
              event.rmseMeasure 0, event.setLambda 0] } rfl rfl rfl
    refine ⟨h1, h2, h3, ?_, ?_, ?_⟩
    · rw [h4]; rfl
    · rw [h5]; rfl
    · refine ⟨[event.solve st.Opt.Lambda st.Opt.Tol st.Opt.MaxIter,
        event.rmseMeasure 0, event.setLambda 0] ++ t, ?_⟩
      rw [ht]
      exact List.append_assoc _ _ _

end Lemmas

section Claims

variable {α : Type} [LinearOrderedField α]

/-- Claim C1 (amended): if `Denoise` is called with a model name that
fails the noise-model validation (any name other than "gaussian",
"laplace", "poisson"), it returns failure before any solver invocation
(the event trace is empty), and the working image buffer `u` is left
unchanged — it is NOT copied from `f`, because the `memcpy` warm start
happens only after the model validation. -/
theorem denoise_unrecognized_model (sqrt : α → α) (solver : Solver α)
    (u f : image α) (Model : String) (Sigma Lambda : α)
    (hM : TvRegSetNoiseModel Model = false) :
    Denoise sqrt solver u f Model Sigma Lambda =
      { success := false, u := u, trace := [] } := by
  unfold Denoise
  rw [hM]
  simp

/-- Witness for claim C1's amended theorem at the spec's concrete
scenario: model "speckle", a one-pixel working buffer distinct from the
noisy input. -/
theorem denoise_unrecognized_model_witness :
    TvRegSetNoiseModel "speckle" = false ∧
      Denoise sqrtQ copySolver (⟨[0], 1, 1, 1⟩ : image ℚ) ⟨[1], 1, 1, 1⟩
        "speckle" (1/10) 1 = { success := false, u := ⟨[0], 1, 1, 1⟩, trace := [] } :=
  ⟨by decide,
   denoise_unrecognized_model sqrtQ copySolver ⟨[0], 1, 1, 1⟩ ⟨[1], 1, 1, 1⟩
     "speckle" (1/10) 1 (by decide)⟩

/-- Counterexample to claim C1 as stated: at model "speckle" with a
working buffer `[0]` and noisy input `[1]`, `Denoise` does return
failure, but the working buffer is NOT copy-equal to the noisy input —
it still holds `[0]`, because the copy happens after validation. -/
theorem denoise_unrecognized_model_cex :
    (Denoise sqrtQ copySolver (⟨[0], 1, 1, 1⟩ : image ℚ) ⟨[1], 1, 1, 1⟩
        "speckle" (1/10) 1).success = false ∧
    ¬ (Denoise sqrtQ copySolver (⟨[0], 1, 1, 1⟩ : image ℚ) ⟨[1], 1, 1, 1⟩
        "speckle" (1/10) 1).u.Data = [(1 : ℚ)] := by
  constructor
  · rfl
  · intro h
    have : ([(0 : ℚ)] : List ℚ) = [(1 : ℚ)] := h
    simp at this

/-- Claim C9: when `Sigma <= 0` the user-supplied lambda is stored
unchanged in the options, tuning is skipped entirely (no tuning solve,
no rmse measurement appears in the trace), and the lambda is not
altered between that store and the final solver call, which runs with
tolerance 5e-4 and iteration cap 100. -/
theorem denoise_fixed_lambda_path (sqrt : α → α) (solver : Solver α)
    (u f : image α) (Model : String) (Sigma Lambda : α)
    (hM : TvRegSetNoiseModel Model = true) (hσ : Sigma ≤ 0) :
    (Denoise sqrt solver u f Model Sigma Lambda).trace =
      [event.setLambda Lambda, event.solve Lambda (5e-4) 100] := by
  unfold Denoise
  rw [hM]
  simp only [Bool.true_eq_false, if_false, if_pos hσ]
  cases h : solver ((⟨(f.Data.take (f.Width * f.Height * f.NumChannels) ++
      u.Data.drop (f.Width * f.Height * f.NumChannels)), u.Width, u.Height,
      u.NumChannels⟩ : image α)).Data f.Data
      (TvRegSetMaxIter (TvRegSetTol (TvRegSetLambda
        { Lambda := 0, NoiseModel := Model, Tol := 1e-2, MaxIter := 40 } Lambda)
        (5e-4)) 100) <;>
    simp [h, TvRegSetLambda, TvRegSetTol, TvRegSetMaxIter, not_lt.mpr hσ]

/-- Witness for claim C9 at a concrete call (`Sigma = 0`,
`Lambda = 7/2`). -/
theorem denoise_fixed_lambda_path_witness :
    TvRegSetNoiseModel "gaussian" = true ∧ ((0 : ℚ) ≤ 0) ∧
      (Denoise sqrtQ copySolver (⟨[0], 1, 1, 1⟩ : image ℚ) ⟨[1], 1, 1, 1⟩
        "gaussian" 0 (7/2)).trace =
        [event.setLambda (7/2), event.solve (7/2) (5e-4) 100] :=
  ⟨by decide, by decide,
   denoise_fixed_lambda_path sqrtQ copySolver ⟨[0], 1, 1, 1⟩ ⟨[1], 1, 1, 1⟩
     "gaussian" 0 (7/2) (by decide) (by decide)⟩

/-- Claim C4: for every recognized model and sigma > 0, the initial
lambda the tuner stores (the first event of the tuning trace) equals the
spec's model-specific closed-form formula clamped from below to 1e-4,
and is therefore always at least 1e-4. -/
theorem lambdatune_initial_lambda (sqrt : α → α) (solver : Solver α)
    (Opt : tvregopt α) (u f : image α) (Model : String) (Sigma : α)
    (hM : Model = "gaussian" ∨ Model = "laplace" ∨ Model = "poisson")
    (hσ : 0 < Sigma) :
    ∃ L, (LambdaTune sqrt solver Opt u f Model Sigma).trace.head? =
        some (event.setLambda L) ∧
      L = max (1e-4) (InitialLambdaSpec Model Sigma) ∧ (1e-4 : α) ≤ L := by
  refine ⟨_, LambdaTune_trace_head sqrt solver Opt u f Model Sigma _
    (initialLambdaRaw_recognized hM Sigma), ?_, ?_⟩
  · rcases lt_or_le (InitialLambdaSpec Model Sigma) (1e-4 : α) with hlt | hle
    · rw [if_pos hlt, max_eq_left hlt.le]
    · rw [if_neg (not_lt.mpr hle), max_eq_right hle]
  · rcases lt_or_le (InitialLambdaSpec Model Sigma) (1e-4 : α) with hlt | hle
    · rw [if_pos hlt]
    · rw [if_neg (not_lt.mpr hle)]
      exact hle

/-- Witness for claim C4 at the gaussian model with sigma = 1/10. -/
theorem lambdatune_initial_lambda_witness :
    ("gaussian" = "gaussian" ∨ "gaussian" = "laplace" ∨ "gaussian" = "poisson") ∧
    (0 : ℚ) < 1/10 ∧
    ∃ L, (LambdaTune sqrtQ copySolver optQ uQ fQ "gaussian" (1/10)).trace.head? =
        some (event.setLambda L) ∧
      L = max (1e-4) (InitialLambdaSpec "gaussian" (1/10)) ∧ (1e-4 : ℚ) ≤ L :=
  ⟨Or.inl rfl, by norm_num,
   lambdatune_initial_lambda sqrtQ copySolver optQ uQ fQ "gaussian" (1/10)
     (Or.inl rfl) (by norm_num)⟩

/-- Claim C5: in a (successful) tuning round, the lambda stored in the
options is the multiplicative correction of the incoming lambda by the
residual ratio — `lambda · sqrt(rmse/sigma)` for laplace,
`lambda · (rmse/sigma)` for the other models — the same value is kept in
the local lambda for the next round, and its store is the last event the
round appends to the trace. -/
theorem tunestep_correction (sqrt : α → α) (solver : Solver α)
    (f : image α) (Model : String) (Sigma : α) (st : tuneState α)
    (d : List α) (hsucc : st.success = true)
    (hd : solver st.u.Data f.Data st.Opt = some d) :
    ((tuneStep sqrt solver f Model Sigma st).Opt.Lambda =
      (if Model = "laplace"
        then st.Lambda * sqrt (ComputeRmse sqrt f { st.u with Data := d } / Sigma)
        else st.Lambda * (ComputeRmse sqrt f { st.u with Data := d } / Sigma))) ∧
    (tuneStep sqrt solver f Model Sigma st).Lambda =
      (tuneStep sqrt solver f Model Sigma st).Opt.Lambda ∧
    (tuneStep sqrt solver f Model Sigma st).trace =
      st.trace ++ [event.solve st.Opt.Lambda st.Opt.Tol st.Opt.MaxIter,
        event.rmseMeasure (ComputeRmse sqrt f { st.u with Data := d }),
        event.setLambda ((tuneStep sqrt solver f Model Sigma st).Opt.Lambda)] := by
  rw [tuneStep_run sqrt solver f Model Sigma st d hsucc hd]
  exact ⟨rfl, rfl, rfl⟩

/-- Witness for claim C5 at a concrete round over ℚ. -/
theorem tunestep_correction_witness :
    stQ.success = true ∧
    copySolver stQ.u.Data fQ.Data stQ.Opt = some [1] ∧
    (((tuneStep sqrtQ copySolver fQ "gaussian" 1 stQ).Opt.Lambda =
      (if "gaussian" = "laplace"
        then stQ.Lambda * sqrtQ (ComputeRmse sqrtQ fQ { stQ.u with Data := [1] } / 1)
        else stQ.Lambda * (ComputeRmse sqrtQ fQ { stQ.u with Data := [1] } / 1))) ∧
    (tuneStep sqrtQ copySolver fQ "gaussian" 1 stQ).Lambda =
      (tuneStep sqrtQ copySolver fQ "gaussian" 1 stQ).Opt.Lambda ∧
    (tuneStep sqrtQ copySolver fQ "gaussian" 1 stQ).trace =
      stQ.trace ++ [event.solve stQ.Opt.Lambda stQ.Opt.Tol stQ.Opt.MaxIter,
        event.rmseMeasure (ComputeRmse sqrtQ fQ { stQ.u with Data := [1] }),
        event.setLambda ((tuneStep sqrtQ copySolver fQ "gaussian" 1 stQ).Opt.Lambda)]) :=
  ⟨rfl, rfl,
   tunestep_correction sqrtQ copySolver fQ "gaussian" 1 stQ [1] rfl rfl⟩

/-- Claim C6: the lambda correction is monotone non-decreasing in the
measured rmse, for every model (linear scaling for gaussian/poisson and
any other name, square-root scaling for laplace), every nonnegative
lambda and every positive sigma. -/
theorem correctlambda_monotone (Model : String) (lam Sigma r1 r2 : ℝ)
    (hσ : 0 < Sigma) (hlam : 0 ≤ lam) (h1 : 0 ≤ r1) (h12 : r1 ≤ r2) :
    correctLambda Real.sqrt Model lam r1 Sigma ≤
      correctLambda Real.sqrt Model lam r2 Sigma := by
  have hdiv : r1 / Sigma ≤ r2 / Sigma := by gcongr
  unfold correctLambda
  split
  · exact mul_le_mul_of_nonneg_left (Real.sqrt_le_sqrt hdiv) hlam
  · exact mul_le_mul_of_nonneg_left hdiv hlam

/-- Witness for claim C6 at the laplace model, rmse going from 0 to 1. -/
theorem correctlambda_monotone_witness :
    (0 : ℝ) < 1 ∧ (0 : ℝ) ≤ 1 ∧ (0 : ℝ) ≤ 0 ∧ (0 : ℝ) ≤ 1 ∧
    correctLambda Real.sqrt "laplace" 1 0 1 ≤
      correctLambda Real.sqrt "laplace" 1 1 1 :=
  ⟨by norm_num, by norm_num, le_refl 0, by norm_num,
   correctlambda_monotone "laplace" 1 1 0 1 (by norm_num) (by norm_num)
     (le_refl 0) (by norm_num)⟩

/-- Claim C7: for images of identical shape (hence identical length
N = width·height·channels), `ComputeRmse` is
`sqrt((1/N) · Σ (f[i] - u[i])²)`. -/
theorem computermse_formula (sqrt : α → α) (f u : image α)
    (hw : f.Width = u.Width) (hh : f.Height = u.Height)
    (hc : f.NumChannels = u.NumChannels)
    (hfl : f.Data.length = u.Width * u.Height * u.NumChannels)
    (hul : u.Data.length = u.Width * u.Height * u.NumChannels) :
    ComputeRmse sqrt f u =
      sqrt ((1 / ((u.Width * u.Height * u.NumChannels : Nat) : α)) *
        ∑ i ∈ Finset.range (u.Width * u.Height * u.NumChannels),
          (f.Data.getD i 0 - u.Data.getD i 0) ^ 2) := by
  rw [ComputeRmse_eq_sum]
  congr 1
  have h2 : (∑ i ∈ Finset.range (u.Width * u.Height * u.NumChannels),
      (f.Data.getD i 0 - u.Data.getD i 0) ^ 2) =
      ∑ i ∈ Finset.range (u.Width * u.Height * u.NumChannels),
        (f.Data.getD i 0 - u.Data.getD i 0) * (f.Data.getD i 0 - u.Data.getD i 0) := by
    refine Finset.sum_congr rfl fun i _ => ?_
    ring
  rw [h2, one_div, inv_mul_eq_div]

/-- Witness for claim C7 at two concrete 2-sample images over ℚ. -/
theorem computermse_formula_witness :
    ((⟨[1, 2], 2, 1, 1⟩ : image ℚ).Width = (⟨[3, 5], 2, 1, 1⟩ : image ℚ).Width) ∧
    ((⟨[1, 2], 2, 1, 1⟩ : image ℚ).Data.length = 2 * 1 * 1) ∧
    ComputeRmse sqrtQ (⟨[1, 2], 2, 1, 1⟩ : image ℚ) ⟨[3, 5], 2, 1, 1⟩ =
      sqrtQ ((1 / (((2 * 1 * 1 : Nat)) : ℚ)) *
        ∑ i ∈ Finset.range (2 * 1 * 1),
          ((⟨[1, 2], 2, 1, 1⟩ : image ℚ).Data.getD i 0 -
            (⟨[3, 5], 2, 1, 1⟩ : image ℚ).Data.getD i 0) ^ 2) :=
  ⟨rfl, rfl,
   computermse_formula sqrtQ ⟨[1, 2], 2, 1, 1⟩ ⟨[3, 5], 2, 1, 1⟩
     rfl rfl rfl rfl rfl⟩

/-- Claim C8: `ComputeRmse` vanishes on identical inputs, and is
symmetric on equal-shaped images. -/
theorem computermse_refl_symm :
    (∀ a : image ℝ, ComputeRmse Real.sqrt a a = 0) ∧
    (∀ a b : image ℝ, a.Width = b.Width → a.Height = b.Height →
      a.NumChannels = b.NumChannels →
      ComputeRmse Real.sqrt a b = ComputeRmse Real.sqrt b a) := by
  constructor
  · intro a
    rw [ComputeRmse_data_eq Real.sqrt a a rfl, Real.sqrt_zero]
  · intro a b hw hh hc
    rw [ComputeRmse_eq_sum, ComputeRmse_eq_sum, hw, hh, hc]
    congr 1
    refine congrArg (fun x => x / _) (Finset.sum_congr rfl fun i _ => ?_)
    ring

/-- Witness for claim C8 at concrete images over ℝ. -/
theorem computermse_refl_symm_witness :
    ComputeRmse Real.sqrt (⟨[1, 2], 2, 1, 1⟩ : image ℝ) ⟨[1, 2], 2, 1, 1⟩ = 0 ∧
    ComputeRmse Real.sqrt (⟨[1, 2], 2, 1, 1⟩ : image ℝ) ⟨[3, 5], 2, 1, 1⟩ =
      ComputeRmse Real.sqrt (⟨[3, 5], 2, 1, 1⟩ : image ℝ) ⟨[1, 2], 2, 1, 1⟩ :=
  ⟨computermse_refl_symm.1 ⟨[1, 2], 2, 1, 1⟩,
   computermse_refl_symm.2 ⟨[1, 2], 2, 1, 1⟩ ⟨[3, 5], 2, 1, 1⟩ rfl rfl rfl⟩

/-- Claim C3: with a solver that never fails, for every recognized
model and sigma > 0, `Denoise` first stores the initial lambda, then
the tuner runs exactly 5 rounds (each: one solver call at the current
lambda with the coarse tolerance 1e-2 and cap 40, one rmse measurement,
one lambda correction store), and afterwards exactly one final solver
call runs, with tolerance 5e-4 and max-iterations 100, at the last
corrected lambda (followed only by the final rmse report measurement). -/
theorem denoise_five_rounds (sqrt : α → α) (solver : Solver α)
    (hs : ∀ a b o, solver a b o ≠ none) (u f : image α) (Model : String)
    (Sigma Lambda : α)
    (hM : Model = "gaussian" ∨ Model = "laplace" ∨ Model = "poisson")
    (hσ : 0 < Sigma) :
    ∃ l0 l1 l2 l3 l4 l5 r1 r2 r3 r4 r5 r6 : α,
      (Denoise sqrt solver u f Model Sigma Lambda).trace =
        [event.setLambda l0,
         event.solve l0 (1e-2) 40, event.rmseMeasure r1, event.setLambda l1,
         event.solve l1 (1e-2) 40, event.rmseMeasure r2, event.setLambda l2,
         event.solve l2 (1e-2) 40, event.rmseMeasure r3, event.setLambda l3,
         event.solve l3 (1e-2) 40, event.rmseMeasure r4, event.setLambda l4,
         event.solve l4 (1e-2) 40, event.rmseMeasure r5, event.setLambda l5,
         event.solve l5 (5e-4) 100, event.rmseMeasure r6] ∧
      (Denoise sqrt solver u f Model Sigma Lambda).success = true := by
  have hT := TvRegSetNoiseModel_recognized hM
  have hL0 := initialLambdaRaw_recognized hM Sigma
  have hS : ¬ Sigma ≤ 0 := not_le.mpr hσ
  unfold Denoise
  rw [hT]
  simp only [Bool.true_eq_false, if_false]
  rw [if_neg hS]
  unfold LambdaTune
  rw [hL0]
  dsimp only
  obtain ⟨lam, mid, ufin, hloop, hshape⟩ :=
    tuneLoop_run_total sqrt solver f Model Sigma hs LAMBDA_TUNE_ITERATIONS
      { success := true,
        u := { u with Data := f.Data.take (f.Width * f.Height * f.NumChannels) ++
               u.Data.drop (f.Width * f.Height * f.NumChannels) },
        Lambda := if InitialLambdaSpec Model Sigma < 1e-4 then 1e-4
                  else InitialLambdaSpec Model Sigma,
        Opt := TvRegSetLambda
          { Lambda := 0, NoiseModel := Model, Tol := 1e-2, MaxIter := 40 }
          (if InitialLambdaSpec Model Sigma < 1e-4 then 1e-4
           else InitialLambdaSpec Model Sigma),
        trace := [event.setLambda (if InitialLambdaSpec Model Sigma < 1e-4
          then 1e-4 else InitialLambdaSpec Model Sigma)] } rfl rfl
  rw [hloop]
  dsimp only [TvRegSetLambda, TvRegSetTol, TvRegSetMaxIter]
  dsimp only [TvRegSetLambda] at hshape
  simp only [Bool.true_eq_false, if_false]
  obtain ⟨d6, hd6⟩ := Option.ne_none_iff_exists'.mp (hs ufin.Data f.Data
    { Lambda := lam, NoiseModel := Model, Tol := 5e-4, MaxIter := 100 })
  rw [hd6]
  dsimp only
  rw [if_pos hσ]
  unfold LAMBDA_TUNE_ITERATIONS at hshape
  simp only [roundsShape] at hshape
  obtain ⟨r1, l1, t1, he1, r2, l2, t2, he2, r3, l3, t3, he3,
    r4, l4, t4, he4, r5, l5, t5, he5, hlam5, ht5⟩ := hshape
  subst he1 he2 he3 he4 he5 ht5
  rw [hlam5]
  exact ⟨if InitialLambdaSpec Model Sigma < 1e-4 then 1e-4
           else InitialLambdaSpec Model Sigma,
         l1, l2, l3, l4, l5, r1, r2, r3, r4, r5,
         ComputeRmse sqrt f { ufin with Data := d6 }, by simp, rfl⟩

/-- Witness for claim C3 at the gaussian model with sigma = 1 and the
copy solver (which never fails). -/
theorem denoise_five_rounds_witness :
    (∀ (a b : List ℚ) (o : tvregopt ℚ), (copySolver : Solver ℚ) a b o ≠ none) ∧
    (0 : ℚ) < 1 ∧
    ∃ l0 l1 l2 l3 l4 l5 r1 r2 r3 r4 r5 r6 : ℚ,
      (Denoise sqrtQ copySolver uQ fQ "gaussian" 1 0).trace =
        [event.setLambda l0,
         event.solve l0 (1e-2) 40, event.rmseMeasure r1, event.setLambda l1,
         event.solve l1 (1e-2) 40, event.rmseMeasure r2, event.setLambda l2,
         event.solve l2 (1e-2) 40, event.rmseMeasure r3, event.setLambda l3,
         event.solve l3 (1e-2) 40, event.rmseMeasure r4, event.setLambda l4,
         event.solve l4 (1e-2) 40, event.rmseMeasure r5, event.setLambda l5,
         event.solve l5 (5e-4) 100, event.rmseMeasure r6] ∧
      (Denoise sqrtQ copySolver uQ fQ "gaussian" 1 0).success = true :=
  ⟨fun a b o => by simp [copySolver], by norm_num,
   denoise_five_rounds sqrtQ copySolver (fun a b o => by simp [copySolver])
     uQ fQ "gaussian" 1 0 (Or.inl rfl) (by norm_num)⟩

/-- Counterexample to claim C2 as stated: specifying BOTH sigma
(`-n gaussian:10`) and lambda (`-l 5`) does not fail — `ParseParams`
succeeds, recording sigma = 10/255 = 2/51 and lambda = 5 (there is no
exclusivity check; line 430 only rejects the case where both are still
at their defaults). -/
theorem parseparams_both_set_cex :
    ParseParams ["iminttvdenoise", "-n", "gaussian:10", "-l", "5",
        "noisy.bmp", "denoised.bmp"] =
      parseResult.ok ⟨some "noisy.bmp", some "denoised.bmp", 95,
        "gaussian", 2/51, 5⟩ := by
  with_unfolding_all rfl

/-- Claim C2 (amended): `ParseParams` requires AT LEAST one of
{sigma, lambda} to be set: when neither is specified (both still at
their -1 defaults) it reports the configuration error "Either sigma or
lambda must be specified." and fails; but when both are specified it
succeeds, recording both positive values (no exclusivity is enforced). -/
theorem parseparams_at_least_one :
    (∀ inFile outFile : String,
      inFile.data.head? ≠ some '-' → outFile.data.head? ≠ some '-' →
      ParseParams ["iminttvdenoise", inFile, outFile] =
        parseResult.err "Either sigma or lambda must be specified.\n") ∧
    (∃ p, ParseParams ["iminttvdenoise", "-n", "laplace:12", "-l", "7",
        "a.bmp", "b.bmp"] = parseResult.ok p ∧ 0 < p.Sigma ∧ 0 < p.Lambda) := by
  constructor
  · intro inF outF h1 h2
    unfold ParseParams
    norm_num [parseLoop, h1, h2]
    simp
  · refine ⟨⟨some "a.bmp", some "b.bmp", 95, "laplace", 4/85, 7⟩,
      by with_unfolding_all rfl, ?_, ?_⟩
    · exact (by norm_num : (0 : ℚ) < 4/85)
    · exact (by norm_num : (0 : ℚ) < 7)

/-- Witness for claim C2's amended theorem, applying the
neither-specified branch at concrete file names. -/
theorem parseparams_at_least_one_witness :
    ("x.bmp".data.head? ≠ some '-') ∧
    ParseParams ["iminttvdenoise", "x.bmp", "y.bmp"] =
      parseResult.err "Either sigma or lambda must be specified.\n" :=
  ⟨by decide,
   parseparams_at_least_one.1 "x.bmp" "y.bmp" (by decide) (by decide)⟩

/-- Claim C10: the 1e-4 positivity floor is applied only to the initial
lambda estimate.  The per-round corrected lambda is stored without a
clamp: a measured rmse of 0 makes the correction exactly 0 for every
incoming lambda (first conjunct), and against a solver returning the
noisy image itself (so every round measures rmse 0) the lambda stored
by round 1 is exactly 0 (trace index 3) and the final solve runs at
lambda exactly 0 — the `lambda > 0` data-model invariant is not
preserved by the correction step. -/
theorem lambda_floor_not_preserved (sqrt : α → α) (u f : image α)
    (Model : String) (Sigma Lambda : α) (hsq : sqrt 0 = 0)
    (hM : Model = "gaussian" ∨ Model = "laplace" ∨ Model = "poisson")
    (hσ : 0 < Sigma) :
    (∀ L S : α, correctLambda sqrt Model L 0 S = 0) ∧
    (Denoise sqrt copySolver u f Model Sigma Lambda).trace[3]? =
      some (event.setLambda 0) ∧
    ((Denoise sqrt copySolver u f Model Sigma Lambda).trace.filter
      isSolveEvent).getLast? = some (event.solve 0 (5e-4) 100) := by
  refine ⟨fun L S => correctLambda_rmse_zero sqrt hsq Model L S, ?_⟩
  have hT := TvRegSetNoiseModel_recognized hM
  have hL0 := initialLambdaRaw_recognized hM Sigma
  have hS : ¬ Sigma ≤ 0 := not_le.mpr hσ
  unfold Denoise
  rw [hT]
  simp only [Bool.true_eq_false, if_false]
  rw [if_neg hS]
  unfold LambdaTune
  rw [hL0]
  dsimp only
  have h5 : tuneLoop sqrt copySolver f Model Sigma LAMBDA_TUNE_ITERATIONS =
      fun st : tuneState α => tuneLoop sqrt copySolver f Model Sigma 4
        (tuneStep sqrt copySolver f Model Sigma st) := rfl
  rw [h5]
  dsimp only
  rw [tuneStep_run sqrt copySolver f Model Sigma
    { success := true,
      u := { u with Data := f.Data.take (f.Width * f.Height * f.NumChannels) ++
             u.Data.drop (f.Width * f.Height * f.NumChannels) },
      Lambda := if InitialLambdaSpec Model Sigma < 1e-4 then 1e-4
                else InitialLambdaSpec Model Sigma,
      Opt := TvRegSetLambda
        { Lambda := 0, NoiseModel := Model, Tol := 1e-2, MaxIter := 40 }
        (if InitialLambdaSpec Model Sigma < 1e-4 then 1e-4
         else InitialLambdaSpec Model Sigma),
      trace := [event.setLambda (if InitialLambdaSpec Model Sigma < 1e-4
        then 1e-4 else InitialLambdaSpec Model Sigma)] } f.Data rfl rfl]
  dsimp only [TvRegSetLambda, List.cons_append, List.nil_append]
  rw [ComputeRmse_data_eq sqrt f
    { Data := f.Data, Width := u.Width, Height := u.Height,
      NumChannels := u.NumChannels } rfl, hsq,
    correctLambda_rmse_zero sqrt hsq Model]
  obtain ⟨h1, h2, h3, h4, h5', t, ht⟩ :=
    tuneLoop_copy_zero sqrt f Model Sigma hsq 4
      { success := true,
        u := { Data := f.Data, Width := u.Width, Height := u.Height,
               NumChannels := u.NumChannels },
        Lambda := 0,
        Opt := { Lambda := 0, NoiseModel := Model, Tol := 1e-2, MaxIter := 40 },
        trace := [event.setLambda (if InitialLambdaSpec Model Sigma < 1e-4
            then 1e-4 else InitialLambdaSpec Model Sigma),
          event.solve (if InitialLambdaSpec Model Sigma < 1e-4
            then 1e-4 else InitialLambdaSpec Model Sigma) (1e-2) 40,
          event.rmseMeasure 0, event.setLambda 0] } rfl rfl rfl
  simp only [h1, Bool.true_eq_false, if_false]
  dsimp only [TvRegSetTol, TvRegSetMaxIter]
  rw [h3, ht]
  dsimp only [copySolver]
  rw [if_pos hσ]
  constructor
  · rw [List.getElem?_append_left
        (by simp only [List.length_append, List.length_cons, List.length_nil]; omega),
      List.getElem?_append_left
        (by simp only [List.length_append, List.length_cons, List.length_nil]; omega),
      List.getElem?_append_left (by norm_num)]
    rfl
  · rw [List.filter_append, List.filter_append]
    simp [isSolveEvent]
    rw [← List.cons_append]
    exact List.getLast?_concat _

/-- Witness for claim C10 at the gaussian model, sigma = 1, over ℚ with
the stand-in square root (which does map 0 to 0). -/
theorem lambda_floor_not_preserved_witness :
    sqrtQ 0 = 0 ∧ (0 : ℚ) < 1 ∧
    ((∀ L S : ℚ, correctLambda sqrtQ "gaussian" L 0 S = 0) ∧
     (Denoise sqrtQ copySolver uQ fQ "gaussian" 1 3).trace[3]? =
       some (event.setLambda 0) ∧
     ((Denoise sqrtQ copySolver uQ fQ "gaussian" 1 3).trace.filter
       isSolveEvent).getLast? = some (event.solve 0 (5e-4) 100)) :=
  ⟨rfl, by norm_num,
   lambda_floor_not_preserved sqrtQ uQ fQ "gaussian" 1 3 rfl
     (Or.inl rfl) (by norm_num)⟩

end Claims

end Tvdenoise
